import Mathlib

/-!
Verification development for the `artan` Python package
(`src/python/artan/`): a pyspark wrapper around a JVM library for
keyed online Kalman filtering/smoothing and online mixture estimation.

The Python sources under `src/` are a thin configuration layer:
param mixins (`stateful_transformer.py`), the `LinearKalmanSmoother`
wrapper (`linear_kalman_smoother.py`) and mixture tests
(`test_mixtures.py`).  The estimation algorithms themselves live in the
backing native (JVM) objects; where a claim is decided by that missing
code, the corresponding definitions below are modelled from the spec
(Rauch-Tung-Striebel smoothing, stochastic-approximation EM weight
updates, the keyed state lifecycle) and each such definition says so in
its doc comment.
-/

set_option maxRecDepth 4000

/-! ### Python values and pyspark `TypeConverters`

`stateful_transformer.py` and `linear_kalman_smoother.py` declare their
params with `typeConverter=TypeConverters.toString` /
`TypeConverters.toInt` from `pyspark.ml.param`.  pyspark's
`Params._set` runs the converter only on non-`None` arguments (a
`None` bypasses conversion and is stored as-is), so the embedded value
universe is the converter-reaching values — integers and strings — on
which the converters' semantics are: `toString` accepts exactly strings
(returning them unchanged) and raises `TypeError` otherwise; `toInt`
accepts integers and raises `TypeError` on non-numeric values such as
strings. -/

inductive PyVal where
  | int : Int → PyVal
  | str : String → PyVal
deriving DecidableEq, Repr

inductive PyErr where
  | typeError : PyErr
  | keyError : PyErr
deriving DecidableEq, Repr

def toStringConverter : PyVal → Except PyErr String
  | .str s => .ok s
  | _ => .error .typeError

def toIntConverter : PyVal → Except PyErr Int
  | .int n => .ok n
  | _ => .error .typeError

/-! ### The param maps

A pyspark `Params` object holds an explicitly-set param map and a
default param map; `getOrDefault` consults the former, then the latter,
then raises.  The six params below are the ones declared in the two
source files (`stateKeyCol`, `eventTimeCol`, `watermarkDuration`,
`timeoutMode`, `stateTimeoutDuration` in `stateful_transformer.py`;
`fixedLag` in `linear_kalman_smoother.py`).  Note that the sources never
call `_setDefault`, so the Python-side default map stays empty. -/

structure ParamMap where
  stateKeyCol : Option String
  eventTimeCol : Option String
  watermarkDuration : Option String
  timeoutMode : Option String
  stateTimeoutDuration : Option String
  fixedLag : Option Int
deriving DecidableEq, Repr

def ParamMap.empty : ParamMap :=
  ⟨none, none, none, none, none, none⟩

/-- `StatefulTransformer(JavaTransformer, HasStateKeyCol, HasEventTimeCol,
HasWatermarkDuration, HasStateTimeoutDuration, HasStateTimeoutMode)` from
`stateful_transformer.py`, embedded as its pyspark param state: the
instance identity (`uid`), the explicitly-set param map and the default
param map. -/
structure StatefulTransformer where
  uid : String
  paramMap : ParamMap
  defaultParamMap : ParamMap
deriving DecidableEq, Repr

/-- A freshly constructed transformer: pyspark `Params.__init__` starts
with both param maps empty, and no `_setDefault` call appears in the
sources. -/
def StatefulTransformer.fresh (uid : String) : StatefulTransformer :=
  ⟨uid, ParamMap.empty, ParamMap.empty⟩

/-! Setters.  Python's `Params._set(param=value)` runs the param's type
converter on every non-`None` argument (raising `TypeError` and leaving
the object untouched on failure; a `None` argument skips the converter
and is outside the embedded value universe), then stores the converted
value, and the wrapper method returns `self`.  We embed each setter as a
function returning the resulting object together with `Option PyErr`; on
failure the original object is returned unchanged, mirroring that the
raised exception prevents any mutation. -/

def setStateKeyCol (t : StatefulTransformer) (v : PyVal) :
    StatefulTransformer × Option PyErr :=
  match toStringConverter v with
  | .ok s => ({ t with paramMap := { t.paramMap with stateKeyCol := some s } }, none)
  | .error e => (t, some e)

def setEventTimeCol (t : StatefulTransformer) (v : PyVal) :
    StatefulTransformer × Option PyErr :=
  match toStringConverter v with
  | .ok s => ({ t with paramMap := { t.paramMap with eventTimeCol := some s } }, none)
  | .error e => (t, some e)

def setWatermarkDuration (t : StatefulTransformer) (v : PyVal) :
    StatefulTransformer × Option PyErr :=
  match toStringConverter v with
  | .ok s => ({ t with paramMap := { t.paramMap with watermarkDuration := some s } }, none)
  | .error e => (t, some e)

def setStateTimeoutMode (t : StatefulTransformer) (v : PyVal) :
    StatefulTransformer × Option PyErr :=
  match toStringConverter v with
  | .ok s => ({ t with paramMap := { t.paramMap with timeoutMode := some s } }, none)
  | .error e => (t, some e)

def setStateTimeoutDuration (t : StatefulTransformer) (v : PyVal) :
    StatefulTransformer × Option PyErr :=
  match toStringConverter v with
  | .ok s => ({ t with paramMap := { t.paramMap with stateTimeoutDuration := some s } }, none)
  | .error e => (t, some e)

/-- pyspark `Params.getOrDefault`: the explicitly-set value if present,
else the registered default, else a raised error. -/
def getOrDefault {α : Type} (explicit dflt : Option α) : Except PyErr α :=
  match explicit with
  | some v => .ok v
  | none =>
    match dflt with
    | some v => .ok v
    | none => .error .keyError

def getStateKeyCol (t : StatefulTransformer) : Except PyErr String :=
  getOrDefault t.paramMap.stateKeyCol t.defaultParamMap.stateKeyCol

def getEventTimeCol (t : StatefulTransformer) : Except PyErr String :=
  getOrDefault t.paramMap.eventTimeCol t.defaultParamMap.eventTimeCol

def getWatermarkDuration (t : StatefulTransformer) : Except PyErr String :=
  getOrDefault t.paramMap.watermarkDuration t.defaultParamMap.watermarkDuration

def getTimeoutMode (t : StatefulTransformer) : Except PyErr String :=
  getOrDefault t.paramMap.timeoutMode t.defaultParamMap.timeoutMode

def getStateTimeoutDuration (t : StatefulTransformer) : Except PyErr String :=
  getOrDefault t.paramMap.stateTimeoutDuration t.defaultParamMap.stateTimeoutDuration

/-! ### The `LinearKalmanSmoother` wrapper (`linear_kalman_smoother.py`) -/

/-- The handle created by `self._new_java_obj(className, stateSize,
measurementSize, self.uid)` in `LinearKalmanSmoother.__init__`. -/
structure JavaObject where
  className : String
  stateSizeArg : Int
  measurementSizeArg : Int
  uidArg : String
deriving DecidableEq, Repr

/-- `class LinearKalmanSmoother(StatefulTransformer,
LinearKalmanFilterParams, HasFixedLag)`: the transformer param state
plus the backing native object handle. -/
structure LinearKalmanSmoother extends StatefulTransformer where
  javaObj : JavaObject
deriving DecidableEq, Repr

/-- `LinearKalmanSmoother.__init__(stateSize, measurementSize)`: runs the
mixin initialisers (empty param maps, no defaults registered) and creates
the backing native object
`com.ozancicek.artan.ml.smoother.LinearKalmanSmoother(stateSize,
measurementSize, uid)`. -/
def mkLinearKalmanSmoother (stateSize measurementSize : Int) (uid : String) :
    LinearKalmanSmoother :=
  { uid := uid
    paramMap := ParamMap.empty
    defaultParamMap := ParamMap.empty
    javaObj :=
      ⟨"com.ozancicek.artan.ml.smoother.LinearKalmanSmoother",
        stateSize, measurementSize, uid⟩ }

/-- `LinearKalmanSmoother.setFixedLag(value)`: `self._set(fixedLag=value)`
with `TypeConverters.toInt`. -/
def setFixedLag (sm : LinearKalmanSmoother) (v : PyVal) :
    LinearKalmanSmoother × Option PyErr :=
  match toIntConverter v with
  | .ok n => ({ sm with paramMap := { sm.paramMap with fixedLag := some n } }, none)
  | .error e => (sm, some e)

/-- `HasFixedLag.getFixedLag`: `self.getOrDefault(self.fixedLag)`. -/
def getFixedLag (sm : LinearKalmanSmoother) : Except PyErr Int :=
  getOrDefault sm.paramMap.fixedLag sm.defaultParamMap.fixedLag

/-- pyspark `JavaTransformer.transform` (the only transform the Python
class inherits): transfers the Python-side params to the backing java
object and invokes its `transform`; the Python layer performs no
computation of its own.  The native behaviour is abstracted as an
arbitrary function `nativeEval` of the handle, the params and the
input. -/
def smootherTransform {DF : Type}
    (nativeEval : JavaObject → ParamMap → DF → DF)
    (sm : LinearKalmanSmoother) (df : DF) : DF :=
  nativeEval sm.javaObj sm.paramMap df

/-! ### The Kalman filter and fixed-lag RTS smoother

The numeric computation is performed by the backing native object, whose
code is not part of the Python sources.  Modelled from the spec: the
single-step predict/update recursion of section 4.1 and the
Rauch-Tung-Striebel backward pass of section 4.2, over exact rationals.
The emission schedule follows the `LinearKalmanSmoother` class docstring
in `linear_kalman_smoother.py` (lines 49-53): "For each time step
k >= N, the smoother outputs an estimate for all the time steps between
k and k-N.  When k < N, the smoother doesn't output any estimates." -/

abbrev Vec (n : ℕ) := Matrix (Fin n) (Fin 1) ℚ

abbrev Mat (a b : ℕ) := Matrix (Fin a) (Fin b) ℚ

/-- Matrix inverse over ℚ via the adjugate (the `S⁻¹` / `P_prior⁻¹` of
the spec's update and RTS formulas). -/
def matInv {k : ℕ} (A : Mat k k) : Mat k k :=
  A.det⁻¹ • A.adjugate

/-- Modelled from the spec (section 4.1): a linear system's transition
matrix `F`, process noise `Q`, observation matrix `H` and measurement
noise `R`. -/
structure LinearSystem (n m : ℕ) where
  F : Mat n n
  Q : Mat n n
  H : Mat m n
  R : Mat m m

/-- A state estimate: mean vector and covariance. -/
structure Gaussian (n : ℕ) where
  x : Vec n
  P : Mat n n

/-- Modelled from the spec (section 4.1): `x' = F·x`, `P' = F·P·Fᵗ + Q`
(no control input). -/
def predict {n m : ℕ} (sys : LinearSystem n m) (s : Gaussian n) : Gaussian n :=
  ⟨sys.F * s.x, sys.F * s.P * sys.F.transpose + sys.Q⟩

/-- Modelled from the spec (section 4.1): innovation `y = z - H·x'`,
`S = H·P'·Hᵗ + R`, gain `K = P'·Hᵗ·S⁻¹`, posterior `x = x' + K·y`,
`P = (I - K·H)·P'`. -/
def kalmanUpdate {n m : ℕ} (sys : LinearSystem n m) (prior : Gaussian n)
    (z : Vec m) : Gaussian n :=
  let y := z - sys.H * prior.x
  let S := sys.H * prior.P * sys.H.transpose + sys.R
  let K := prior.P * sys.H.transpose * matInv S
  ⟨prior.x + K * y, (1 - K * sys.H) * prior.P⟩

/-- Run the filter over a measurement sequence, recording for each event
the prior (predicted) and posterior (filtered) estimates — the per-step
contents of the spec's `LagBuffer`. -/
def filterSteps {n m : ℕ} (sys : LinearSystem n m) (s : Gaussian n) :
    List (Vec m) → List (Gaussian n × Gaussian n)
  | [] => []
  | z :: zs =>
    let pr := predict sys s
    let po := kalmanUpdate sys pr z
    (pr, po) :: filterSteps sys po zs

/-- Modelled from the spec (section 4.2): the RTS backward pass over a
window of (prior, filtered) pairs, starting from
`x_smoothed[newest] = x_filtered[newest]` and recursing with
`C = P_filtered[t]·Fᵗ·P_prior⁻¹[t+1]`,
`x_smoothed[t] = x_filtered[t] + C·(x_smoothed[t+1] - x_prior[t+1])`,
`P_smoothed[t] = P_filtered[t] + C·(P_smoothed[t+1] - P_prior[t+1])·Cᵗ`. -/
def rtsPass {n m : ℕ} (sys : LinearSystem n m) :
    List (Gaussian n × Gaussian n) → List (Gaussian n)
  | [] => []
  | [step] => [step.2]
  | step :: next :: rest =>
    let tail := rtsPass sys (next :: rest)
    let sNext := tail.headD next.2
    let C := step.2.P * sys.F.transpose * matInv next.1.P
    ⟨step.2.x + C * (sNext.x - next.1.x),
      step.2.P + C * (sNext.P - next.1.P) * C.transpose⟩ :: tail

/-- The smoother's output at event `k` (0-indexed), as
(stateIndex, estimate) pairs: nothing while `k < lag`; once `k ≥ lag`,
the RTS backward pass over the buffered window of the last `lag + 1`
steps, producing one smoothed estimate for every time step from
`k - lag` through `k` (the class docstring's "an estimate for all the
time steps between k and k-N"). -/
def smootherOutputAt {n m : ℕ} (sys : LinearSystem n m) (s : Gaussian n)
    (zs : List (Vec m)) (lag k : ℕ) : List (ℕ × Gaussian n) :=
  if lag ≤ k then
    List.zip (List.range' (k - lag) (lag + 1))
      (rtsPass sys (((filterSteps sys s zs).take (k + 1)).drop (k - lag)))
  else []

/-- All records the smoother emits over a whole measurement sequence, in
event order. -/
def smootherTotalOutput {n m : ℕ} (sys : LinearSystem n m) (s : Gaussian n)
    (zs : List (Vec m)) (lag : ℕ) : List (ℕ × Gaussian n) :=
  ((List.range zs.length).map (smootherOutputAt sys s zs lag)).flatten

/-- N filter updates followed by a full-history RTS backward pass. -/
def fullRTS {n m : ℕ} (sys : LinearSystem n m) (s : Gaussian n)
    (zs : List (Vec m)) : List (Gaussian n) :=
  rtsPass sys (filterSteps sys s zs)

/-- The pure filtered (posterior) estimates, one per event. -/
def filteredEstimates {n m : ℕ} (sys : LinearSystem n m) (s : Gaussian n)
    (zs : List (Vec m)) : List (Gaussian n) :=
  (filterSteps sys s zs).map Prod.snd

/-- A concrete one-dimensional system used as a test vector. -/
def exSys : LinearSystem 1 1 := ⟨1, 1, 1, 1⟩

def exInit : Gaussian 1 := ⟨0, 1⟩

def exZs : List (Vec 1) := [0, 0]

def exZ1 : List (Vec 1) := [0]

/-! ### Mixture-model weight dynamics

The mixture estimators (`MultivariateGaussianMixture`, `PoissonMixture`,
`BernoulliMixture`) are exercised by `test_mixtures.py` but implemented
in the backing native objects.  Modelled from the spec: the shared
responsibility computation of section 4.3 (parameterised by the
pluggable component densities, covering all three families) and the
stochastic-approximation weight update of section 4.4.  Densities enter
every update as inputs, which subsumes any evolution of the component
parameters. -/

/-- Modelled from the spec (section 4.3): responsibilities
`r_i = w_i·p_i(s) / Σ_j w_j·p_j(s)`, with the uniform fallback when the
denominator underflows to zero. -/
def responsibilities (ws ps : List ℚ) : List ℚ :=
  if (List.zipWith (fun w p => w * p) ws ps).sum = 0 then
    ws.map (fun _ => ((ws.length : ℚ))⁻¹)
  else
    (List.zipWith (fun w p => w * p) ws ps).map
      (fun r => r / (List.zipWith (fun w p => w * p) ws ps).sum)

/-- Componentwise sum of equally-long rational lists (statistic
accumulation across a minibatch). -/
def addComponents (a b : List ℚ) : List ℚ :=
  List.zipWith (fun x y => x + y) a b

/-- Modelled from the spec (sections 4.3-4.4): the minibatch's mean
responsibility per component, `Σ_samples r_i / batchSize`. -/
def meanResponsibilities (ws : List ℚ) (batch : List (List ℚ)) : List ℚ :=
  ((batch.map (responsibilities ws)).foldr addComponents
      (List.replicate ws.length 0)).map (fun x => x / (batch.length : ℚ))

/-- Modelled from the spec (section 4.4): the weight update
`w_i ← w_i + η_t·(Σr_i/batchSize − w_i)`. -/
def weightUpdate (η : ℚ) (ws rbar : List ℚ) : List ℚ :=
  List.zipWith (fun w r => w + η * (r - w)) ws rbar

/-- One parameter update of the mixing weights from one minibatch (each
sample contributes its per-component density values). -/
def stepMixtureWeights (η : ℚ) (ws : List ℚ) (batch : List (List ℚ)) : List ℚ :=
  weightUpdate η ws (meanResponsibilities ws batch)

/-- Run the online trainer over a sequence of minibatches; `stepSizeAt t`
is the blend coefficient `η_t` of the `t`-th update (covering both the
constant `stepSize` and the decaying `1/(t+1)^decayRate` schedules). -/
def runMixtureWeights (stepSizeAt : ℕ → ℚ) (t : ℕ) (ws : List ℚ) :
    List (List (List ℚ)) → List ℚ
  | [] => ws
  | batch :: rest =>
    runMixtureWeights stepSizeAt (t + 1)
      (stepMixtureWeights (stepSizeAt t) ws batch) rest

/-! ### Keyed state lifecycle: late-event handling

Modelled from the spec (sections 4.5 and 7): the Lifecycle Manager
rejects (drops) events whose event time is older than
`watermarkDuration` behind the key's maximum observed event time, before
any estimator code runs; dropped events mutate nothing, emit nothing and
are never fatal. -/

structure KeyState (σ : Type) where
  maxEventTime : Int
  estimator : σ

inductive StreamError where
  | dimensionMismatch : StreamError
  | singularMatrix : StreamError
  | invalidWeight : StreamError
deriving DecidableEq, Repr

/-- Modelled from the spec (section 4.5): process one event for a key.
A late event (older than the watermark bound) is dropped before the
estimator update `updateState` — which may itself fail — is invoked;
otherwise the estimator runs, the maximum observed event time advances
and its outputs are emitted. -/
def processKeyedEvent {σ μ out : Type} (watermarkDuration : Int)
    (updateState : σ → Int → μ → Except StreamError (σ × List out))
    (ks : KeyState σ) (eventTime : Int) (meas : μ) :
    Except StreamError (KeyState σ × List out) :=
  if eventTime < ks.maxEventTime - watermarkDuration then .ok (ks, [])
  else
    match updateState ks.estimator eventTime meas with
    | .ok (s', outs) => .ok (⟨max ks.maxEventTime eventTime, s'⟩, outs)
    | .error e => .error e

/-! ## Helper lemmas -/

theorem filterSteps_length {n m : ℕ} (sys : LinearSystem n m) :
    ∀ (s : Gaussian n) (zs : List (Vec m)),
      (filterSteps sys s zs).length = zs.length
  | _, [] => rfl
  | s, z :: zs => by
    simp [filterSteps, filterSteps_length sys (kalmanUpdate sys (predict sys s) z) zs]

theorem rtsPass_length {n m : ℕ} (sys : LinearSystem n m) :
    ∀ l : List (Gaussian n × Gaussian n), (rtsPass sys l).length = l.length
  | [] => rfl
  | [_] => rfl
  | step :: next :: rest => by
    simp [rtsPass, rtsPass_length sys (next :: rest)]

theorem smootherOutputAt_eq_nil {n m : ℕ} (sys : LinearSystem n m)
    (s : Gaussian n) (zs : List (Vec m)) {lag k : ℕ} (h : k < lag) :
    smootherOutputAt sys s zs lag k = [] := by
  rw [smootherOutputAt, if_neg (by omega)]

theorem smootherWindow_length {n m : ℕ} (sys : LinearSystem n m)
    (s : Gaussian n) (zs : List (Vec m)) {lag k : ℕ}
    (hk : k < zs.length) (hlag : lag ≤ k) :
    (((filterSteps sys s zs).take (k + 1)).drop (k - lag)).length = lag + 1 := by
  simp only [List.length_drop, List.length_take, filterSteps_length]
  omega

theorem smootherOutputAt_map_fst {n m : ℕ} (sys : LinearSystem n m)
    (s : Gaussian n) (zs : List (Vec m)) {lag k : ℕ}
    (hk : k < zs.length) (hlag : lag ≤ k) :
    (smootherOutputAt sys s zs lag k).map Prod.fst =
      List.range' (k - lag) (lag + 1) := by
  rw [smootherOutputAt, if_pos hlag]
  apply List.map_fst_zip
  rw [rtsPass_length, smootherWindow_length sys s zs hk hlag, List.length_range']

theorem smootherOutputAt_length {n m : ℕ} (sys : LinearSystem n m)
    (s : Gaussian n) (zs : List (Vec m)) {lag k : ℕ}
    (hk : k < zs.length) (hlag : lag ≤ k) :
    (smootherOutputAt sys s zs lag k).length = lag + 1 := by
  rw [← List.length_map _ Prod.fst, smootherOutputAt_map_fst sys s zs hk hlag,
    List.length_range']

theorem flatten_map_range_eq_nil {α : Type} (f : ℕ → List α) (N : ℕ)
    (h : ∀ k, k < N → f k = []) : ((List.range N).map f).flatten = [] := by
  rw [List.flatten_eq_nil_iff]
  intro l hl
  rcases List.mem_map.mp hl with ⟨k, hk, rfl⟩
  exact h k (List.mem_range.mp hk)

theorem smootherTotalOutput_large_lag {n m : ℕ} (sys : LinearSystem n m)
    (s : Gaussian n) (zs : List (Vec m)) (lag : ℕ) (h : zs.length ≤ lag) :
    smootherTotalOutput sys s zs lag = [] :=
  flatten_map_range_eq_nil _ _
    (fun _ hk => smootherOutputAt_eq_nil sys s zs (by omega))

theorem flatten_take_one_drop {α : Type} :
    ∀ L : List α,
      ((List.range L.length).map (fun k => List.take 1 (L.drop k))).flatten = L
  | [] => rfl
  | a :: L => by
    rw [List.length_cons, List.range_succ_eq_map, List.map_cons, List.map_map]
    simp only [List.drop_zero, List.flatten_cons, Function.comp_def,
      List.drop_succ_cons]
    rw [flatten_take_one_drop L]
    rfl

theorem smootherOutputAt_zero_lag {n m : ℕ} (sys : LinearSystem n m)
    (s : Gaussian n) (zs : List (Vec m)) {k : ℕ} (hk : k < zs.length) :
    (smootherOutputAt sys s zs 0 k).map Prod.snd
      = List.take 1 (((filterSteps sys s zs).map Prod.snd).drop k) := by
  have hk' : k < (filterSteps sys s zs).length := by
    rw [filterSteps_length]; exact hk
  rw [smootherOutputAt, if_pos (Nat.zero_le k), Nat.sub_zero, List.drop_take,
    Nat.add_sub_cancel_left, List.take_one_drop_eq_of_lt_length hk',
    ← List.map_drop, ← List.map_take, List.take_one_drop_eq_of_lt_length hk']
  simp [rtsPass, List.range']

theorem smootherTotalOutput_zero_lag {n m : ℕ} (sys : LinearSystem n m)
    (s : Gaussian n) (zs : List (Vec m)) :
    (smootherTotalOutput sys s zs 0).map Prod.snd
      = filteredEstimates sys s zs := by
  rw [smootherTotalOutput, List.map_flatten, List.map_map]
  simp only [Function.comp_def]
  rw [List.map_congr_left
    (fun k hk => smootherOutputAt_zero_lag sys s zs (List.mem_range.mp hk))]
  have hlen : ((filterSteps sys s zs).map Prod.snd).length = zs.length := by
    rw [List.length_map, filterSteps_length]
  rw [← hlen]
  exact flatten_take_one_drop _

theorem sum_map_div (l : List ℚ) (c : ℚ) :
    (l.map (fun x => x / c)).sum = l.sum / c := by
  induction l with
  | nil => simp
  | cons a l ih => simp [ih, add_div]

theorem responsibilities_length (ws ps : List ℚ) (h : ps.length = ws.length) :
    (responsibilities ws ps).length = ws.length := by
  rw [responsibilities]
  by_cases h0 : (List.zipWith (fun w p => w * p) ws ps).sum = 0
  · rw [if_pos h0, List.length_map]
  · rw [if_neg h0, List.length_map, List.length_zipWith, h]
    simp

theorem responsibilities_sum (ws ps : List ℚ)
    (hk : 0 < ws.length) : (responsibilities ws ps).sum = 1 := by
  rw [responsibilities]
  by_cases h0 : (List.zipWith (fun w p => w * p) ws ps).sum = 0
  · rw [if_pos h0, List.map_const', List.sum_replicate, nsmul_eq_mul,
      mul_inv_cancel₀]
    exact Nat.cast_ne_zero.mpr (by omega)
  · rw [if_neg h0, sum_map_div, div_self h0]

theorem addComponents_sum : ∀ (a b : List ℚ), a.length = b.length →
    (addComponents a b).sum = a.sum + b.sum
  | [], [], _ => by simp [addComponents]
  | [], _ :: _, h => by simp at h
  | _ :: _, [], h => by simp at h
  | x :: a, y :: b, h => by
    have ih := addComponents_sum a b (by simpa using h)
    simp only [addComponents, List.zipWith_cons_cons, List.sum_cons] at *
    rw [ih]
    ring

theorem foldr_addComponents_invariant (k : ℕ) :
    ∀ L : List (List ℚ), (∀ l ∈ L, l.length = k ∧ l.sum = 1) →
      (L.foldr addComponents (List.replicate k 0)).length = k ∧
      (L.foldr addComponents (List.replicate k 0)).sum = (L.length : ℚ)
  | [], _ => by simp
  | l :: L, h => by
    have hl := h l (List.mem_cons_self l L)
    have ih := foldr_addComponents_invariant k L
      (fun x hx => h x (List.mem_cons_of_mem l hx))
    rw [List.foldr_cons]
    refine ⟨?_, ?_⟩
    · rw [addComponents, List.length_zipWith, hl.1, ih.1]
      simp
    · rw [addComponents_sum _ _ (by rw [hl.1, ih.1]), hl.2, ih.2,
        List.length_cons]
      push_cast
      ring

theorem meanResponsibilities_invariant (ws : List ℚ) (batch : List (List ℚ))
    (hk : 0 < ws.length) (hb : batch ≠ [])
    (hlen : ∀ ps ∈ batch, ps.length = ws.length) :
    (meanResponsibilities ws batch).length = ws.length ∧
    (meanResponsibilities ws batch).sum = 1 := by
  have hfold := foldr_addComponents_invariant ws.length
    (batch.map (responsibilities ws)) ?_
  · constructor
    · rw [meanResponsibilities, List.length_map, hfold.1]
    · rw [meanResponsibilities, sum_map_div, hfold.2, List.length_map,
        div_self]
      exact Nat.cast_ne_zero.mpr (fun h0 => hb (List.length_eq_zero.mp h0))
  · intro l hl
    rcases List.mem_map.mp hl with ⟨ps, hps, rfl⟩
    exact ⟨responsibilities_length ws ps (hlen ps hps),
      responsibilities_sum ws ps hk⟩

theorem weightUpdate_sum (η : ℚ) : ∀ (ws rs : List ℚ), ws.length = rs.length →
    (weightUpdate η ws rs).sum = ws.sum + η * (rs.sum - ws.sum)
  | [], [], _ => by simp [weightUpdate]
  | [], _ :: _, h => by simp at h
  | _ :: _, [], h => by simp at h
  | w :: ws, r :: rs, h => by
    have ih := weightUpdate_sum η ws rs (by simpa using h)
    simp only [weightUpdate, List.zipWith_cons_cons, List.sum_cons] at *
    rw [ih]
    ring

theorem stepMixtureWeights_invariant (η : ℚ) (ws : List ℚ)
    (batch : List (List ℚ)) (hk : 0 < ws.length) (hsum : ws.sum = 1)
    (hb : batch ≠ []) (hlen : ∀ ps ∈ batch, ps.length = ws.length) :
    (stepMixtureWeights η ws batch).length = ws.length ∧
    (stepMixtureWeights η ws batch).sum = 1 := by
  obtain ⟨hl, hs⟩ := meanResponsibilities_invariant ws batch hk hb hlen
  constructor
  · rw [stepMixtureWeights, weightUpdate, List.length_zipWith, hl]
    simp
  · rw [stepMixtureWeights, weightUpdate_sum η ws _ hl.symm, hsum, hs]
    ring

theorem runMixtureWeights_invariant (stepSizeAt : ℕ → ℚ) :
    ∀ (t : ℕ) (ws : List ℚ) (batches : List (List (List ℚ))),
      0 < ws.length → ws.sum = 1 →
      (∀ batch ∈ batches, batch ≠ [] ∧ ∀ ps ∈ batch, ps.length = ws.length) →
      (runMixtureWeights stepSizeAt t ws batches).sum = 1
  | _, _, [], _, hsum, _ => hsum
  | t, ws, batch :: rest, hk, hsum, hbs => by
    have hb := hbs batch (List.mem_cons_self _ _)
    obtain ⟨hl, hs⟩ :=
      stepMixtureWeights_invariant (stepSizeAt t) ws batch hk hsum hb.1 hb.2
    exact runMixtureWeights_invariant stepSizeAt (t + 1) _ rest
      (by rw [hl]; exact hk) hs
      (fun b hbm =>
        ⟨(hbs b (List.mem_cons_of_mem _ hbm)).1,
         fun ps hps => by
           rw [hl]
           exact (hbs b (List.mem_cons_of_mem _ hbm)).2 ps hps⟩)

theorem smootherTotalOutput_full_window {n m : ℕ} (sys : LinearSystem n m)
    (s : Gaussian n) (zs : List (Vec m)) :
    (smootherTotalOutput sys s zs (zs.length - 1)).map Prod.snd
      = fullRTS sys s zs := by
  cases hzs : zs with
  | nil => rfl
  | cons z zs' =>
    rw [← hzs]
    have hN : 1 ≤ zs.length := by rw [hzs]; exact Nat.succ_le_succ (Nat.zero_le _)
    have hrange : List.range zs.length
        = List.range (zs.length - 1) ++ [zs.length - 1] := by
      rw [← List.range_succ]
      congr 1
      omega
    rw [smootherTotalOutput, hrange, List.map_append, List.flatten_append,
      flatten_map_range_eq_nil _ _
        (fun k hk => smootherOutputAt_eq_nil sys s zs hk),
      List.nil_append, List.map_cons, List.map_nil, List.flatten_cons,
      List.flatten_nil, List.append_nil]
    rw [smootherOutputAt, if_pos (le_refl _), Nat.sub_self,
      List.drop_zero]
    have htake : (filterSteps sys s zs).take (zs.length - 1 + 1)
        = filterSteps sys s zs := by
      apply List.take_of_length_le
      rw [filterSteps_length]
      omega
    rw [htake]
    apply List.map_snd_zip
    rw [List.length_range', rtsPass_length, filterSteps_length]
    omega

/-! ## Claim theorems -/

/-- Claim C1 (amended): for every key that has received fewer than
`fixedLag` events no output record is produced; for every event
`k ≥ fixedLag` the smoother emits smoothed estimates for every time step
from `k - fixedLag` through `k` — `fixedLag + 1` records, whose oldest is
the estimate for step `k - fixedLag` — not a single estimate per
event. -/
theorem smoother_emission_rule {n m : ℕ} (sys : LinearSystem n m)
    (s : Gaussian n) (zs : List (Vec m)) (lag k : ℕ) (hk : k < zs.length) :
    (k < lag → smootherOutputAt sys s zs lag k = []) ∧
    (lag ≤ k →
      (smootherOutputAt sys s zs lag k).length = lag + 1 ∧
      (smootherOutputAt sys s zs lag k).map Prod.fst
        = List.range' (k - lag) (lag + 1)) :=
  ⟨fun h => smootherOutputAt_eq_nil sys s zs h,
   fun h => ⟨smootherOutputAt_length sys s zs hk h,
     smootherOutputAt_map_fst sys s zs hk h⟩⟩

/-- Claim C1 counterexample: with `fixedLag = 1`, at event `k = 1` of a
two-measurement stream the smoother emits two records, not exactly
one. -/
theorem smoother_single_emission_cex :
    (smootherOutputAt exSys exInit exZs 1 1).length ≠ 1 := by
  rw [smootherOutputAt_length exSys exInit exZs (by simp [exZs]) (le_refl 1)]
  omega

/-- Claim C1 witness: the emission rule evaluated at the concrete
1-dimensional system, `fixedLag = 1`, event `k = 1`. -/
theorem smoother_emission_rule_witness :
    1 < exZs.length ∧
    (smootherOutputAt exSys exInit exZs 1 1).length = 2 ∧
    (smootherOutputAt exSys exInit exZs 1 1).map Prod.fst = List.range' 0 2 :=
  ⟨by simp [exZs],
   ((smoother_emission_rule exSys exInit exZs 1 1 (by simp [exZs])).2
      (le_refl 1)).1,
   ((smoother_emission_rule exSys exInit exZs 1 1 (by simp [exZs])).2
      (le_refl 1)).2⟩

/-- Claim C2 (amended): for every system and measurement sequence of
length N, the fixed-lag smoother whose window at the last event covers
the whole history (`fixedLag = N - 1` in this 0-indexed model) emits
exactly the estimates of N filter updates followed by a full-history RTS
backward pass; with lag 0 the smoother's output equals the pure filtered
estimates; and a smoother with `fixedLag ≥ N` emits nothing at all for a
sequence of N events (emission only starts at event index `fixedLag`). -/
theorem smoother_rts_equivalence {n m : ℕ} (sys : LinearSystem n m)
    (s : Gaussian n) (zs : List (Vec m)) :
    (smootherTotalOutput sys s zs (zs.length - 1)).map Prod.snd
        = fullRTS sys s zs ∧
    (smootherTotalOutput sys s zs 0).map Prod.snd
        = filteredEstimates sys s zs ∧
    ∀ lag, zs.length ≤ lag → smootherTotalOutput sys s zs lag = [] :=
  ⟨smootherTotalOutput_full_window sys s zs,
   smootherTotalOutput_zero_lag sys s zs,
   fun lag h => smootherTotalOutput_large_lag sys s zs lag h⟩

/-- Claim C2 counterexample: for a single-measurement stream (N = 1) the
smoother configured with `fixedLag = 1 ≥ N` emits nothing, while one
filter update followed by a full-history RTS pass yields one estimate —
so the two are not equal as the claim states. -/
theorem smoother_full_history_cex :
    (smootherTotalOutput exSys exInit exZ1 1).map Prod.snd
      ≠ fullRTS exSys exInit exZ1 := by
  intro h
  have hlen := congrArg List.length h
  rw [smootherTotalOutput_large_lag exSys exInit exZ1 1 (by simp [exZ1])]
    at hlen
  rw [fullRTS, rtsPass_length, filterSteps_length] at hlen
  simp [exZ1] at hlen

/-- Claim C2 witness: the third conjunct evaluated at the concrete
1-dimensional system with one measurement and `fixedLag = 2`. -/
theorem smoother_rts_equivalence_witness :
    exZ1.length ≤ 2 ∧ smootherTotalOutput exSys exInit exZ1 2 = [] :=
  ⟨by simp [exZ1],
   (smoother_rts_equivalence exSys exInit exZ1).2.2 2 (by simp [exZ1])⟩

/-- Claim C3 (code bug): the docstrings promise `getFixedLag` returns the
default value 2 when the lag was never set, but no Python-side default is
ever registered for `fixedLag`, so `getOrDefault` raises instead of
returning 2: evaluated at a freshly constructed smoother, `getFixedLag`
yields the raised error. -/
theorem getFixedLag_unset_raises :
    getFixedLag (mkLinearKalmanSmoother 2 1 "LinearKalmanSmoother_a1b2")
      = Except.error PyErr.keyError := rfl

/-- Claim C4 counterexample: `setStateTimeoutMode` applied to the string
"banana" — outside `{none, process, event}` — is not rejected: it
succeeds and overwrites the stored `timeoutMode`. -/
theorem setStateTimeoutMode_accepts_invalid_cex :
    (setStateTimeoutMode (StatefulTransformer.fresh "st_1")
        (PyVal.str "banana")).2 = none ∧
    (setStateTimeoutMode (StatefulTransformer.fresh "st_1")
        (PyVal.str "banana")).1.paramMap.timeoutMode = some "banana" :=
  ⟨rfl, rfl⟩

/-- Claim C4 (amended): the Python layer does not validate the timeout
mode's domain: `setStateTimeoutMode(v)` succeeds for every string `v` —
including strings outside `{none, process, event}` — and stores `v`
unchanged. -/
theorem setStateTimeoutMode_stores_any_string (t : StatefulTransformer)
    (s : String) :
    setStateTimeoutMode t (PyVal.str s)
      = ({ t with paramMap := { t.paramMap with timeoutMode := some s } },
          none) :=
  rfl

/-- Claim C5: for the shared mixture core (instantiated by the Gaussian,
Poisson and Bernoulli families through their density values) with any
number of components ≥ 1, starting from weights summing to 1, the mixing
weights still sum to exactly 1 — hence within ±1e-9 — after every
parameter update (every prefix `batches.take j` of the minibatch
stream), for any step-size schedule. -/
theorem mixture_weights_sum_one (stepSizeAt : ℕ → ℚ) (t : ℕ) (ws : List ℚ)
    (batches : List (List (List ℚ))) (hk : 0 < ws.length) (hsum : ws.sum = 1)
    (hbs : ∀ batch ∈ batches,
      batch ≠ [] ∧ ∀ ps ∈ batch, ps.length = ws.length) :
    ∀ j : ℕ, (runMixtureWeights stepSizeAt t ws (batches.take j)).sum = 1 :=
  fun j => runMixtureWeights_invariant stepSizeAt t ws (batches.take j) hk hsum
    (fun b hb => hbs b (List.take_subset j batches hb))

/-- Claim C5 witness: one component with weight [1], one minibatch of one
sample with density value [1], step size 1. -/
theorem mixture_weights_sum_one_witness :
    0 < ([(1 : ℚ)]).length ∧
    ([(1 : ℚ)]).sum = 1 ∧
    (runMixtureWeights (fun _ => (1 : ℚ)) 0 [(1 : ℚ)]
        ([[[(1 : ℚ)]]].take 1)).sum = 1 :=
  ⟨by simp, by simp,
   mixture_weights_sum_one (fun _ => (1 : ℚ)) 0 [(1 : ℚ)]
     [[[(1 : ℚ)]]] (by simp) (by simp) (by simp) 1⟩

/-- Claim C6: a late event — event time older than the watermark bound
behind the key's maximum observed event time — never changes the key's
state, never produces an output record and never raises an error, even
when the estimator update itself would fail. -/
theorem late_event_dropped {σ μ out : Type} (watermarkDuration : Int)
    (updateState : σ → Int → μ → Except StreamError (σ × List out))
    (ks : KeyState σ) (eventTime : Int) (meas : μ)
    (hlate : eventTime < ks.maxEventTime - watermarkDuration) :
    processKeyedEvent watermarkDuration updateState ks eventTime meas
      = Except.ok (ks, []) := by
  rw [processKeyedEvent, if_pos hlate]

/-- Claim C6 witness: watermark 5, key at max event time 100, late event
at time 90, with an estimator update that would fail if invoked. -/
theorem late_event_dropped_witness :
    ((90 : Int) < 100 - 5) ∧
    processKeyedEvent 5
        (fun (_ : Unit) (_ : Int) (_ : Unit) =>
          (Except.error StreamError.dimensionMismatch :
            Except StreamError (Unit × List Unit)))
        ⟨100, ()⟩ 90 () = Except.ok (⟨100, ()⟩, []) :=
  ⟨by decide,
   late_event_dropped 5
     (fun (_ : Unit) (_ : Int) (_ : Unit) =>
       (Except.error StreamError.dimensionMismatch :
         Except StreamError (Unit × List Unit)))
     ⟨100, ()⟩ 90 () (by decide)⟩

/-- Claim C7: constructing `LinearKalmanSmoother(stateSize,
measurementSize)` creates a backing native object of class
`com.ozancicek.artan.ml.smoother.LinearKalmanSmoother` with arguments
`(stateSize, measurementSize, uid)`, and the inherited transform is pure
delegation to that object — the Python layer performs no estimation
computation. -/
theorem linearKalmanSmoother_constructor_delegation
    (stateSize measurementSize : Int) (uid : String) :
    (mkLinearKalmanSmoother stateSize measurementSize uid).javaObj
      = ⟨"com.ozancicek.artan.ml.smoother.LinearKalmanSmoother",
          stateSize, measurementSize, uid⟩ ∧
    ∀ (DF : Type) (nativeEval : JavaObject → ParamMap → DF → DF) (df : DF),
      smootherTransform nativeEval
          (mkLinearKalmanSmoother stateSize measurementSize uid) df
        = nativeEval
            (mkLinearKalmanSmoother stateSize measurementSize uid).javaObj
            (mkLinearKalmanSmoother stateSize measurementSize uid).paramMap
            df :=
  ⟨rfl, fun _ _ _ => rfl⟩

/-- Claim C8: every configuration setter returns the transformer instance
it was called on (same `uid`, the object being mutated in place and
returned) and modifies only the parameter it names — every other stored
parameter is left unchanged. -/
theorem setters_return_self_and_frame (t : StatefulTransformer)
    (sm : LinearKalmanSmoother) (s : String) (nv : Int) :
    ((setStateKeyCol t (PyVal.str s)).1.uid = t.uid ∧
     (setStateKeyCol t (PyVal.str s)).1.paramMap.eventTimeCol
        = t.paramMap.eventTimeCol ∧
     (setStateKeyCol t (PyVal.str s)).1.paramMap.watermarkDuration
        = t.paramMap.watermarkDuration ∧
     (setStateKeyCol t (PyVal.str s)).1.paramMap.timeoutMode
        = t.paramMap.timeoutMode ∧
     (setStateKeyCol t (PyVal.str s)).1.paramMap.stateTimeoutDuration
        = t.paramMap.stateTimeoutDuration ∧
     (setStateKeyCol t (PyVal.str s)).1.paramMap.fixedLag
        = t.paramMap.fixedLag) ∧
    ((setEventTimeCol t (PyVal.str s)).1.uid = t.uid ∧
     (setEventTimeCol t (PyVal.str s)).1.paramMap.stateKeyCol
        = t.paramMap.stateKeyCol ∧
     (setEventTimeCol t (PyVal.str s)).1.paramMap.watermarkDuration
        = t.paramMap.watermarkDuration ∧
     (setEventTimeCol t (PyVal.str s)).1.paramMap.timeoutMode
        = t.paramMap.timeoutMode ∧
     (setEventTimeCol t (PyVal.str s)).1.paramMap.stateTimeoutDuration
        = t.paramMap.stateTimeoutDuration ∧
     (setEventTimeCol t (PyVal.str s)).1.paramMap.fixedLag
        = t.paramMap.fixedLag) ∧
    ((setWatermarkDuration t (PyVal.str s)).1.uid = t.uid ∧
     (setWatermarkDuration t (PyVal.str s)).1.paramMap.stateKeyCol
        = t.paramMap.stateKeyCol ∧
     (setWatermarkDuration t (PyVal.str s)).1.paramMap.eventTimeCol
        = t.paramMap.eventTimeCol ∧
     (setWatermarkDuration t (PyVal.str s)).1.paramMap.timeoutMode
        = t.paramMap.timeoutMode ∧
     (setWatermarkDuration t (PyVal.str s)).1.paramMap.stateTimeoutDuration
        = t.paramMap.stateTimeoutDuration ∧
     (setWatermarkDuration t (PyVal.str s)).1.paramMap.fixedLag
        = t.paramMap.fixedLag) ∧
    ((setStateTimeoutMode t (PyVal.str s)).1.uid = t.uid ∧
     (setStateTimeoutMode t (PyVal.str s)).1.paramMap.stateKeyCol
        = t.paramMap.stateKeyCol ∧
     (setStateTimeoutMode t (PyVal.str s)).1.paramMap.eventTimeCol
        = t.paramMap.eventTimeCol ∧
     (setStateTimeoutMode t (PyVal.str s)).1.paramMap.watermarkDuration
        = t.paramMap.watermarkDuration ∧
     (setStateTimeoutMode t (PyVal.str s)).1.paramMap.stateTimeoutDuration
        = t.paramMap.stateTimeoutDuration ∧
     (setStateTimeoutMode t (PyVal.str s)).1.paramMap.fixedLag
        = t.paramMap.fixedLag) ∧
    ((setStateTimeoutDuration t (PyVal.str s)).1.uid = t.uid ∧
     (setStateTimeoutDuration t (PyVal.str s)).1.paramMap.stateKeyCol
        = t.paramMap.stateKeyCol ∧
     (setStateTimeoutDuration t (PyVal.str s)).1.paramMap.eventTimeCol
        = t.paramMap.eventTimeCol ∧
     (setStateTimeoutDuration t (PyVal.str s)).1.paramMap.watermarkDuration
        = t.paramMap.watermarkDuration ∧
     (setStateTimeoutDuration t (PyVal.str s)).1.paramMap.timeoutMode
        = t.paramMap.timeoutMode ∧
     (setStateTimeoutDuration t (PyVal.str s)).1.paramMap.fixedLag
        = t.paramMap.fixedLag) ∧
    ((setFixedLag sm (PyVal.int nv)).1.uid = sm.uid ∧
     (setFixedLag sm (PyVal.int nv)).1.paramMap.stateKeyCol
        = sm.paramMap.stateKeyCol ∧
     (setFixedLag sm (PyVal.int nv)).1.paramMap.eventTimeCol
        = sm.paramMap.eventTimeCol ∧
     (setFixedLag sm (PyVal.int nv)).1.paramMap.watermarkDuration
        = sm.paramMap.watermarkDuration ∧
     (setFixedLag sm (PyVal.int nv)).1.paramMap.timeoutMode
        = sm.paramMap.timeoutMode ∧
     (setFixedLag sm (PyVal.int nv)).1.paramMap.stateTimeoutDuration
        = sm.paramMap.stateTimeoutDuration) :=
  ⟨⟨rfl, rfl, rfl, rfl, rfl, rfl⟩, ⟨rfl, rfl, rfl, rfl, rfl, rfl⟩,
   ⟨rfl, rfl, rfl, rfl, rfl, rfl⟩, ⟨rfl, rfl, rfl, rfl, rfl, rfl⟩,
   ⟨rfl, rfl, rfl, rfl, rfl, rfl⟩, ⟨rfl, rfl, rfl, rfl, rfl, rfl⟩⟩

/-- Claim C9: parameter values are converted by the param's type
converter at set time — a successful `setFixedLag` stores the integer
conversion of its argument, a successful string-param set stores the
string conversion (the string itself), and an unconvertible value makes
the set fail with `TypeError`, leaving the object unchanged. -/
theorem setters_type_convert (t : StatefulTransformer)
    (sm : LinearKalmanSmoother) (s : String) (nv : Int) :
    (setFixedLag sm (PyVal.int nv)).1.paramMap.fixedLag = some nv ∧
    setFixedLag sm (PyVal.str s) = (sm, some PyErr.typeError) ∧
    (setStateKeyCol t (PyVal.str s)).1.paramMap.stateKeyCol = some s ∧
    setStateKeyCol t (PyVal.int nv) = (t, some PyErr.typeError) ∧
    (setEventTimeCol t (PyVal.str s)).1.paramMap.eventTimeCol = some s ∧
    setEventTimeCol t (PyVal.int nv) = (t, some PyErr.typeError) ∧
    (setWatermarkDuration t (PyVal.str s)).1.paramMap.watermarkDuration
      = some s ∧
    setWatermarkDuration t (PyVal.int nv) = (t, some PyErr.typeError) ∧
    (setStateTimeoutMode t (PyVal.str s)).1.paramMap.timeoutMode = some s ∧
    setStateTimeoutMode t (PyVal.int nv) = (t, some PyErr.typeError) ∧
    (setStateTimeoutDuration t (PyVal.str s)).1.paramMap.stateTimeoutDuration
      = some s ∧
    setStateTimeoutDuration t (PyVal.int nv) = (t, some PyErr.typeError) :=
  ⟨rfl, rfl, rfl, rfl, rfl, rfl, rfl, rfl, rfl, rfl, rfl, rfl⟩

/-- Claim C10: calling a configuration getter when the parameter has
neither been explicitly set nor given a Python-side default raises an
error rather than returning a fallback value. -/
theorem getters_raise_without_default (t : StatefulTransformer)
    (sm : LinearKalmanSmoother) :
    (t.paramMap.stateKeyCol = none → t.defaultParamMap.stateKeyCol = none →
      getStateKeyCol t = Except.error PyErr.keyError) ∧
    (t.paramMap.eventTimeCol = none → t.defaultParamMap.eventTimeCol = none →
      getEventTimeCol t = Except.error PyErr.keyError) ∧
    (t.paramMap.watermarkDuration = none →
      t.defaultParamMap.watermarkDuration = none →
      getWatermarkDuration t = Except.error PyErr.keyError) ∧
    (t.paramMap.timeoutMode = none → t.defaultParamMap.timeoutMode = none →
      getTimeoutMode t = Except.error PyErr.keyError) ∧
    (t.paramMap.stateTimeoutDuration = none →
      t.defaultParamMap.stateTimeoutDuration = none →
      getStateTimeoutDuration t = Except.error PyErr.keyError) ∧
    (sm.paramMap.fixedLag = none → sm.defaultParamMap.fixedLag = none →
      getFixedLag sm = Except.error PyErr.keyError) :=
  ⟨fun h1 h2 => by rw [getStateKeyCol, h1, h2]; rfl,
   fun h1 h2 => by rw [getEventTimeCol, h1, h2]; rfl,
   fun h1 h2 => by rw [getWatermarkDuration, h1, h2]; rfl,
   fun h1 h2 => by rw [getTimeoutMode, h1, h2]; rfl,
   fun h1 h2 => by rw [getStateTimeoutDuration, h1, h2]; rfl,
   fun h1 h2 => by rw [getFixedLag, h1, h2]; rfl⟩

/-- Claim C10 witness: all six getters applied to freshly constructed
objects, where nothing has been set and no default exists. -/
theorem getters_raise_without_default_witness :
    getStateKeyCol (StatefulTransformer.fresh "st_w")
      = Except.error PyErr.keyError ∧
    getEventTimeCol (StatefulTransformer.fresh "st_w")
      = Except.error PyErr.keyError ∧
    getWatermarkDuration (StatefulTransformer.fresh "st_w")
      = Except.error PyErr.keyError ∧
    getTimeoutMode (StatefulTransformer.fresh "st_w")
      = Except.error PyErr.keyError ∧
    getStateTimeoutDuration (StatefulTransformer.fresh "st_w")
      = Except.error PyErr.keyError ∧
    getFixedLag (mkLinearKalmanSmoother 1 1 "lks_w")
      = Except.error PyErr.keyError :=
  ⟨(getters_raise_without_default (StatefulTransformer.fresh "st_w")
      (mkLinearKalmanSmoother 1 1 "lks_w")).1 rfl rfl,
   (getters_raise_without_default (StatefulTransformer.fresh "st_w")
      (mkLinearKalmanSmoother 1 1 "lks_w")).2.1 rfl rfl,
   (getters_raise_without_default (StatefulTransformer.fresh "st_w")
      (mkLinearKalmanSmoother 1 1 "lks_w")).2.2.1 rfl rfl,
   (getters_raise_without_default (StatefulTransformer.fresh "st_w")
      (mkLinearKalmanSmoother 1 1 "lks_w")).2.2.2.1 rfl rfl,
   (getters_raise_without_default (StatefulTransformer.fresh "st_w")
      (mkLinearKalmanSmoother 1 1 "lks_w")).2.2.2.2.1 rfl rfl,
   (getters_raise_without_default (StatefulTransformer.fresh "st_w")
      (mkLinearKalmanSmoother 1 1 "lks_w")).2.2.2.2.2 rfl rfl⟩
